import Mathlib

/-!
# Doc-Weather-Assistant: a shallow embedding of the routing graph

This file embeds the routing-and-orchestration graph of the
Doc-Weather-Assistant repository (`src/agent.py`, `src/INGEST.py`) in Lean 4
and proves the specification's claims about it.  The three external
collaborators (language model, vector store, weather service) are modelled as
oracle functions; every node of the graph is translated from the Python source.
-/

namespace DocWeather

/-! ## String helpers modelling the Python primitives used by the router -/

/-- Python list-prefix test, on the character lists of strings. -/
def isPrefOf : List Char → List Char → Bool
  | [], _ => true
  | _ :: _, [] => false
  | a :: as, b :: bs => a = b && isPrefOf as bs

/-- Python `pat in s` (contiguous-substring containment) on character lists. -/
def containsSub (pat : List Char) : List Char → Bool
  | [] => isPrefOf pat []
  | b :: bs => isPrefOf pat (b :: bs) || containsSub pat bs

/-- Python `pat in s` on strings. -/
def strContains (s pat : String) : Bool := containsSub pat.data s.data

/-- Python `str.strip` whitespace test (the ASCII whitespace characters). -/
def isSpaceChar (c : Char) : Bool :=
  c = ' ' || c = '\t' || c = '\n' || c = '\r' || c = '\x0b' || c = '\x0c'

/-- Python `s.strip()` on the character list: drop whitespace at both ends. -/
def stripChars (l : List Char) : List Char :=
  ((l.dropWhile isSpaceChar).reverse.dropWhile isSpaceChar).reverse

/-- Python `str.lower` on one character (ASCII letters; the router compares
against the ASCII word `"weather"`). -/
def lowerChar (c : Char) : Char :=
  if 'A' ≤ c ∧ c ≤ 'Z' then Char.ofNat (c.toNat + 32) else c

/-- `response.content.strip().lower()` from `router_node` (src/agent.py line 108). -/
def normalizeDecision (s : String) : String :=
  ⟨(stripChars s.data).map lowerChar⟩

/-! ## Router node (src/agent.py lines 93-114)

`router_node` asks the language model for a decision string; the decision
logic applied to the raw model output is embedded here.  The raw model output
is a parameter (the model is an opaque collaborator). -/

/-- The route computed by `router_node` from the raw model decision string:
strip and lowercase, then route to `"weather"` iff the normalized decision
contains the substring `"weather"`, else to `"rag"`. -/
def router_node (rawDecision : String) : String :=
  let decision := normalizeDecision rawDecision
  if strContains decision "weather" then "weather" else "rag"

/-! ## Weather service call (src/agent.py lines 40-58, `fetch_weather`) -/

/-- The outcome of `requests.get` on the weather endpoint, as the Python code
can observe it: either an HTTP response (with a status code, an optional
parsed JSON body — `none` models a body `response.json()` fails on — and the
message texts of the exceptions `raise_for_status` / `response.json()` would
raise), or a network-level failure (`requests.exceptions.RequestException`)
with its message text. -/
inductive ServiceResponse where
  | http (status : Nat) (body : Option (List (String × String)))
      (httpErrText : String) (jsonErrText : String)
  | netError (errText : String)
deriving Repr, DecidableEq

/-- `fetch_weather` (src/agent.py lines 40-58).  `raise_for_status` raises
`HTTPError` exactly for status codes 400-599; the `except HTTPError` branch
returns the 404 payload or the generic HTTP-error payload; a network failure
(including a malformed JSON body, whose `JSONDecodeError` is a
`RequestException`) returns the generic error payload; otherwise the parsed
JSON body is returned as-is. -/
def fetch_weather (svc : String → ServiceResponse) (city : String) :
    List (String × String) :=
  match svc city with
  | .netError e => [("error", "An error occurred: " ++ e)]
  | .http status body httpErr jsonErr =>
    if 400 ≤ status ∧ status < 600 then
      if status = 404 then
        [("error", "City '" ++ city ++ "' not found.")]
      else
        [("error", "HTTP error occurred: " ++ httpErr)]
    else
      match body with
      | some payload => payload
      | none => [("error", "An error occurred: " ++ jsonErr)]

/-- Two successive invocations of `fetch_weather` with the same city against
the same service. -/
def fetch_weather_twice (svc : String → ServiceResponse) (city : String) :
    List (String × String) × List (String × String) :=
  (fetch_weather svc city, fetch_weather svc city)

/-- A concrete sample weather service used to instantiate theorems:
404 for Atlantis, a success payload otherwise. -/
def svcSample : String → ServiceResponse := fun c =>
  if c = "Atlantis" then .http 404 none "404 Client Error: Not Found" ""
  else .http 200 (some [("main", "temp 25"), ("weather", "haze")]) "" ""

/-! ## Weather node (src/agent.py lines 130-147) -/

/-- The output of `weather_node`: the dictionary stored under `weather_data`,
the `sender` tag, and the list of cities the weather service was actually
called with (empty when the node short-circuits). -/
structure WeatherOut where
  weather_data : List (String × String)
  sender : String
  serviceCities : List String
deriving Repr, DecidableEq

/-- `weather_node` (src/agent.py lines 130-147): the structured city
extraction (`structured_llm.invoke(query).city`) is the oracle `extractCity`;
Python `if not result.city` is true exactly on the empty string. -/
def weather_node (extractCity : String → String) (svc : String → ServiceResponse)
    (query : String) : WeatherOut :=
  let city := extractCity query
  if city = "" then
    { weather_data := [("error", "Could not identify a city in the query.")],
      sender := "Weather Tool", serviceCities := [] }
  else
    { weather_data := fetch_weather svc city, sender := "Weather Tool",
      serviceCities := [city] }

/-! ## Retrieval node (src/agent.py lines 82-85 and 116-128) -/

/-- An indexed document chunk as ingestion stores it: text content plus the
metadata fields (src/INGEST.py lines 70-105). -/
structure Chunk where
  page_content : String
  service_name : String
  service_id : String
  section_num : String
  page : Nat
deriving Repr, DecidableEq

/-- `search_kwargs` of the retriever (src/agent.py line 84): top-5 similarity. -/
def retrieveK : Nat := 5

/-- `retriever.invoke(query)` with the store modelled as a function from the
query and the result count to the ordered chunk list it returns. -/
def retrieverInvoke (store : String → Nat → List Chunk) (query : String) :
    List Chunk :=
  store query retrieveK

/-- The `documents` value `rag_node` stores (src/agent.py line 125): only the
`page_content` of each retrieved chunk, in the store's order. -/
def rag_node_documents (store : String → Nat → List Chunk) (query : String) :
    List String :=
  (retrieverInvoke store query).map Chunk.page_content

/-! ## Responder node (src/agent.py lines 149-186) -/

/-- Python truthiness of `state.get("documents")`: a present, non-empty list. -/
def truthyList : Option (List String) → Bool
  | none => false
  | some l => !l.isEmpty

/-- Python truthiness of `state.get("weather_data")`: a present, non-empty dict. -/
def truthyDict : Option (List (String × String)) → Bool
  | none => false
  | some d => !d.isEmpty

/-- The RAG answer prompt built at src/agent.py lines 161-169. -/
def ragPrompt (context question : String) : String :=
  "Based on the following context from the ISO 14229-1 document, \n        provide a concise answer to the user's question.\n\n        Context:\n        "
    ++ context ++ "\n\n        Question:\n        " ++ question ++ "\n        "

/-- Python `repr` of a flat string dict, as the f-string at line 176 inlines it. -/
def dictRepr (d : List (String × String)) : String :=
  "\x7b"
    ++ String.intercalate ", " (d.map fun kv => "'" ++ kv.1 ++ "': '" ++ kv.2 ++ "'")
    ++ "\x7d"

/-- The weather summary prompt built at src/agent.py lines 175-180. -/
def weatherPrompt (query : String) (wd : List (String × String)) : String :=
  "The user asked: \"" ++ query
    ++ "\"\n        Here is the real-time weather data: " ++ dictRepr wd
    ++ ".\n        \n        Generate a friendly, conversational response summarizing this weather information.\n        If there is an error in the data, state it clearly.\n        "

/-- The output of the responder: the `response` string, the `sender` tag and
the prompts of the model calls it issued (in order). -/
structure RespOut where
  response : String
  sender : String
  llmPrompts : List String
deriving Repr, DecidableEq

/-- `response_generator_node` (src/agent.py lines 149-186): documents branch
first (`if documents:`), then weather branch (`elif weather_data:`), then the
fixed fallback with no model call. -/
def response_generator_node (llm : String → String) (query : String)
    (documents : Option (List String))
    (weather_data : Option (List (String × String))) : RespOut :=
  if truthyList documents then
    let prompt := ragPrompt (String.intercalate "\n\n" (documents.getD [])) query
    { response := llm prompt, sender := "Agent", llmPrompts := [prompt] }
  else if truthyDict weather_data then
    let prompt := weatherPrompt query (weather_data.getD [])
    { response := llm prompt, sender := "Agent", llmPrompts := [prompt] }
  else
    { response := "I'm sorry, I couldn't process that request.",
      sender := "Agent", llmPrompts := [] }

/-! ## Graph assembly (src/agent.py lines 188-223) -/

/-- The per-turn state (`AgentState`, src/agent.py lines 20-27).  Keys a turn
has not set are `none` / `""` (the `messages` history does not influence any
node and is omitted). -/
structure AgentState where
  query : String
  route : String
  documents : Option (List String)
  weather_data : Option (List (String × String))
  response : Option String
  sender : String
deriving Repr, DecidableEq

/-- The three external collaborators: free-text model, structured city
extraction, vector store and weather service. -/
structure Oracles where
  llm : String → String
  extractCity : String → String
  store : String → Nat → List Chunk
  svc : String → ServiceResponse

/-- The router classification prompt built at src/agent.py lines 99-105. -/
def routerPrompt (query : String) : String :=
  "Given the user query, should I use the 'weather_tool' for real-time weather information \n    or the 'rag_tool' for answering questions based on the provided ISO 14229-1 document?\n\n    User Query: \""
    ++ query ++ "\"\n\n    Respond with only 'weather' or 'rag'.\n    "

/-- The state update of the `router` node. -/
def router_update (o : Oracles) (s : AgentState) : AgentState :=
  { s with route := router_node (o.llm (routerPrompt s.query)) }

/-- The state update of the `rag_tool` node (src/agent.py lines 116-128). -/
def rag_update (o : Oracles) (s : AgentState) : AgentState :=
  { s with documents := some (rag_node_documents o.store s.query),
           sender := "RAG Tool" }

/-- The state update of the `weather_tool` node. -/
def weather_update (o : Oracles) (s : AgentState) : AgentState :=
  { s with
      weather_data := some (weather_node o.extractCity o.svc s.query).weather_data,
      sender := "Weather Tool" }

/-- The state update of the `responder` node. -/
def responder_update (o : Oracles) (s : AgentState) : AgentState :=
  { s with
      response :=
        some (response_generator_node o.llm s.query s.documents s.weather_data).response,
      sender :=
        (response_generator_node o.llm s.query s.documents s.weather_data).sender }

/-- The graph's nodes (`terminal` is langgraph's `END`). -/
inductive Node where
  | router
  | rag_tool
  | weather_tool
  | responder
  | terminal
deriving Repr, DecidableEq

/-- Apply one node's state update (`terminal` is inert). -/
def applyNode (o : Oracles) : Node → AgentState → AgentState
  | .router, s => router_update o s
  | .rag_tool, s => rag_update o s
  | .weather_tool, s => weather_update o s
  | .responder, s => responder_update o s
  | .terminal, s => s

/-- The edge relation of the compiled graph (src/agent.py lines 202-220),
evaluated — as langgraph does — on the state after the node ran: the
conditional edge out of `router` reads `state.route` through the mapping
at lines 210-213 (an unmapped route has no edge), the other edges are
unconditional. -/
def nextNode : Node → AgentState → Option Node
  | .router, s =>
      if s.route = "rag" then some .rag_tool
      else if s.route = "weather" then some .weather_tool
      else none
  | .rag_tool, _ => some .responder
  | .weather_tool, _ => some .responder
  | .responder, _ => some .terminal
  | .terminal, _ => none

/-- Fuel-bounded execution from a node: apply the node, follow the edge.
Returns the list of visited nodes and the final state. -/
def runFrom (o : Oracles) : Nat → Node → AgentState → List Node × AgentState
  | 0, n, s => ([n], s)
  | fuel + 1, n, s =>
    let s' := applyNode o n s
    match nextNode n s' with
    | none => ([n], s')
    | some n' =>
      let r := runFrom o fuel n' s'
      (n :: r.1, r.2)

/-- The fresh per-turn state the caller supplies (src/main.py lines 33-36):
only `query` (and the history) is set. -/
def initState (q : String) : AgentState :=
  { query := q, route := "", documents := none, weather_data := none,
    response := none, sender := "" }

/-- One full turn: run the graph from `router` on a fresh state.  Fuel 5
suffices for the longest path router → tool → responder → terminal. -/
def runTurn (o : Oracles) (q : String) : List Node × AgentState :=
  runFrom o 5 .router (initState q)

/-! ## Ingestion: page-range computation (src/INGEST.py lines 23-64) -/

/-- One value of `service_index` (src/INGEST.py lines 44-49): the regex
captures `section_num`, `service_name`, `service_id` and the page the match
was found on. -/
structure SvcEntry where
  service_name : String
  service_id : String
  section_num : String
  start : Nat
deriving Repr, DecidableEq

/-- A page range after the end markers are added (src/INGEST.py lines 59-63):
the dict key `"end"` is the field `endPage`. -/
structure PageRange where
  service_name : String
  service_id : String
  section_num : String
  start : Nat
  endPage : Nat
deriving Repr, DecidableEq

/-- `service_index[service_name] = entry` on an insertion-ordered dict:
overwriting keeps the key's position, a new key goes to the end. -/
def dictInsert (e : SvcEntry) : List SvcEntry → List SvcEntry
  | [] => [e]
  | x :: xs => if x.service_name = e.service_name then e :: xs else x :: dictInsert e xs

/-- `service_index` built from the regex matches in page order
(src/INGEST.py lines 33-49), then read out as `list(service_index.values())`. -/
def buildServiceIndex (ms : List SvcEntry) : List SvcEntry :=
  ms.foldl (fun acc e => dictInsert e acc) []

/-- The ordering `sorted(..., key=lambda x: x["start"])` sorts by. -/
def leStart (a b : SvcEntry) : Prop := a.start ≤ b.start

instance : DecidableRel leStart := fun a b => Nat.decLe a.start b.start

instance : IsTotal SvcEntry leStart := ⟨fun a b => Nat.le_total a.start b.start⟩

instance : IsTrans SvcEntry leStart := ⟨fun _ _ _ h h' => Nat.le_trans h h'⟩

/-- Python `sorted(page_ranges, key=lambda x: x["start"])` (src/INGEST.py
line 53): a stable ascending sort on `start`. -/
def sortByStart (l : List SvcEntry) : List SvcEntry :=
  l.insertionSort leStart

/-- The end-marker loop (src/INGEST.py lines 59-63): every range's `end` is
the next range's `start`; the last range's `end` is the document's page
count. -/
def addEnds (total : Nat) : List SvcEntry → List PageRange
  | [] => []
  | [a] => [⟨a.service_name, a.service_id, a.section_num, a.start, total⟩]
  | a :: b :: rest =>
      ⟨a.service_name, a.service_id, a.section_num, a.start, b.start⟩
        :: addEnds total (b :: rest)

/-- The page ranges `parse_iso14229_pdf` computes (src/INGEST.py lines 51-63)
from the regex matches and the document's page count: build the service
index, sort by start page, keep the first 5 services, add end markers. -/
def parse_page_ranges (ms : List SvcEntry) (total : Nat) : List PageRange :=
  addEnds total ((sortByStart (buildServiceIndex ms)).take 5)

/-- A constant language model used for concrete counterexample states. -/
def llmConst : String → String := fun _ => "Sounds good."

/-- Two chunks that differ only in the `page` metadata field. -/
def chunkPageA : Chunk :=
  { page_content := "ECUReset request message definition",
    service_name := "ECUReset", service_id := "0x11", section_num := "9.3",
    page := 41 }

/-- The same text as `chunkPageA` on a different source page. -/
def chunkPageB : Chunk :=
  { page_content := "ECUReset request message definition",
    service_name := "ECUReset", service_id := "0x11", section_num := "9.3",
    page := 57 }

/-- A store answering every query with `chunkPageA` only. -/
def storeA : String → Nat → List Chunk := fun _ _ => [chunkPageA]

/-- A store answering every query with `chunkPageB` only. -/
def storeB : String → Nat → List Chunk := fun _ _ => [chunkPageB]

/-! ## Helper lemmas -/

/-- The router's decision rule lands in the closed set of the two routes. -/
theorem router_node_mem (raw : String) :
    router_node raw = "weather" ∨ router_node raw = "rag" := by
  cases h : strContains (normalizeDecision raw) "weather" <;>
    simp [router_node, h]

/-! ## Claim theorems -/

/-- C1: for every raw router decision string, after normalization
(whitespace-stripped, lowercased), the route is `"weather"` when the
normalized string contains the substring `"weather"`, `"rag"` (the retrieval
path) in every other case, and the route is always one of exactly these two
values. -/
theorem router_decision_rule (raw : String) :
    (strContains (normalizeDecision raw) "weather" = true →
        router_node raw = "weather")
  ∧ (strContains (normalizeDecision raw) "weather" = false →
        router_node raw = "rag")
  ∧ (router_node raw = "weather" ∨ router_node raw = "rag") := by
  refine ⟨fun h => ?_, fun h => ?_, router_node_mem raw⟩ <;>
    simp [router_node, h]

/-- C3: `fetch_weather` classifies its outcome: a network-level failure gives
the payload `"An error occurred: <err>"`; HTTP 404 gives exactly
`"City '<city>' not found."`; any other 4xx/5xx status (the statuses
`raise_for_status` raises on) gives `"HTTP error occurred: <err>"`; on
success the parsed JSON payload is returned as-is, so no `error` key is added
by the program. -/
theorem fetch_weather_classification (svc : String → ServiceResponse)
    (city : String) :
    (∀ e, svc city = .netError e →
        fetch_weather svc city = [("error", "An error occurred: " ++ e)])
  ∧ (∀ body he je, svc city = .http 404 body he je →
        fetch_weather svc city = [("error", "City '" ++ city ++ "' not found.")])
  ∧ (∀ s body he je, svc city = .http s body he je →
        400 ≤ s → s < 600 → s ≠ 404 →
        fetch_weather svc city = [("error", "HTTP error occurred: " ++ he)])
  ∧ (∀ s payload he je, svc city = .http s (some payload) he je →
        ¬(400 ≤ s ∧ s < 600) →
        fetch_weather svc city = payload
      ∧ ∀ k, k ∈ (fetch_weather svc city).map Prod.fst →
          k ∈ payload.map Prod.fst) := by
  refine ⟨fun e h => ?_, fun body he je h => ?_,
    fun s body he je h h4 h6 hne => ?_, fun s payload he je h hn => ?_⟩
  · simp [fetch_weather, h]
  · simp [fetch_weather, h]
  · rw [fetch_weather, h]
    simp only []
    rw [if_pos ⟨h4, h6⟩, if_neg hne]
  · rw [fetch_weather, h]
    simp only []
    rw [if_neg hn]
    exact ⟨rfl, fun k hk => by simpa using hk⟩

/-- C9: invoking the weather fetch twice with an identical city against an
unchanged external service (a fixed function from requests to responses)
yields identical structured payloads, on the success and on every error
path. -/
theorem fetch_weather_repeat_deterministic (svc svc' : String → ServiceResponse)
    (c c' : String) (hsvc : svc = svc') (hc : c = c') :
    fetch_weather svc c = fetch_weather svc' c'
  ∧ fetch_weather_twice svc c =
      (fetch_weather svc' c', fetch_weather svc' c') := by
  subst hsvc; subst hc; exact ⟨rfl, rfl⟩

/-- Witness for C9 at the concrete city Bengaluru against the sample service. -/
theorem fetch_weather_repeat_deterministic_witness :
    fetch_weather svcSample "Bengaluru" = fetch_weather svcSample "Bengaluru"
  ∧ fetch_weather_twice svcSample "Bengaluru" =
      (fetch_weather svcSample "Bengaluru", fetch_weather svcSample "Bengaluru") :=
  fetch_weather_repeat_deterministic svcSample svcSample "Bengaluru" "Bengaluru"
    rfl rfl

/-- C4: the Weather node is a total function of the state: when the
structured city extraction identifies no city (the empty string) it
short-circuits to exactly the `Could not identify a city in the query.`
error payload without consulting the weather service (the result is the same
for any service); in every other case it stores the structured value
`fetch_weather` resolves to — success or error payload — and it always
returns with sender `Weather Tool`, never aborting the turn. -/
theorem weather_node_shortcircuit_total (extractCity : String → String)
    (svc svc' : String → ServiceResponse) (query : String) :
    (extractCity query = "" →
        weather_node extractCity svc query =
          { weather_data := [("error", "Could not identify a city in the query.")],
            sender := "Weather Tool", serviceCities := [] }
      ∧ weather_node extractCity svc query = weather_node extractCity svc' query)
  ∧ (extractCity query ≠ "" →
        (weather_node extractCity svc query).weather_data
          = fetch_weather svc (extractCity query)
      ∧ (weather_node extractCity svc query).serviceCities = [extractCity query])
  ∧ (weather_node extractCity svc query).sender = "Weather Tool" := by
  refine ⟨fun h => ⟨?_, ?_⟩, fun h => ⟨?_, ?_⟩, ?_⟩
  · simp [weather_node, h]
  · simp [weather_node, h]
  · simp [weather_node, h]
  · simp [weather_node, h]
  · by_cases h : extractCity query = "" <;> simp [weather_node, h]

/-- C2 counterexample: a state reaching the Responder with `weather_data`
present but equal to the empty dict (`some []`, which Python's
`elif weather_data:` treats as falsy) and no documents produces the fixed
fallback string with no model call — not the conversational weather summary
the claim requires for every present `weatherResult`. -/
theorem responder_present_empty_dict_cex :
    (some ([] : List (String × String))).isSome = true
  ∧ response_generator_node llmConst "what is the weather in Pune?" none (some [])
      = { response := "I'm sorry, I couldn't process that request.",
          sender := "Agent", llmPrompts := [] } :=
  ⟨rfl, rfl⟩

/-- C2 (amended): for every state reaching the Responder, exactly one of
three mutually exclusive branches runs, by priority: a non-empty
`documents` yields the document-grounded answer with exactly one model call
and the result ignores `weather_data` entirely; otherwise a present
*non-empty* `weather_data` (every error payload is non-empty) yields the
conversational weather summary with exactly one model call; otherwise the
fixed fallback string is emitted with no model call. -/
theorem responder_branch_priority (llm : String → String) (query : String)
    (documents : Option (List String))
    (wd wd' : Option (List (String × String))) :
    (truthyList documents = true →
        response_generator_node llm query documents wd
          = response_generator_node llm query documents wd'
      ∧ (response_generator_node llm query documents wd).llmPrompts
          = [ragPrompt (String.intercalate "\n\n" (documents.getD [])) query]
      ∧ (response_generator_node llm query documents wd).response
          = llm (ragPrompt (String.intercalate "\n\n" (documents.getD [])) query))
  ∧ (truthyList documents = false → truthyDict wd = true →
        (response_generator_node llm query documents wd).llmPrompts
          = [weatherPrompt query (wd.getD [])]
      ∧ (response_generator_node llm query documents wd).response
          = llm (weatherPrompt query (wd.getD [])))
  ∧ (truthyList documents = false → truthyDict wd = false →
        response_generator_node llm query documents wd
          = { response := "I'm sorry, I couldn't process that request.",
              sender := "Agent", llmPrompts := [] }) := by
  refine ⟨fun hd => ?_, fun hd hw => ?_, fun hd hw => ?_⟩
  · simp [response_generator_node, hd]
  · simp [response_generator_node, hd, hw]
  · simp [response_generator_node, hd, hw]

/-- C7: the Retrieval node asks the vector store for exactly the top
`K = 5` most similar chunks and stores their text content in the store's
order, with no re-ranking, filtering or deduplication: element `i` of
`documents` is the text of element `i` of what the store returned for
count 5, and the lengths agree. -/
theorem rag_node_topk_order (store : String → Nat → List Chunk)
    (query : String) :
    retrieveK = 5
  ∧ rag_node_documents store query = (store query 5).map Chunk.page_content
  ∧ (rag_node_documents store query).length = (store query 5).length
  ∧ (∀ i, (rag_node_documents store query).get? i
        = ((store query 5).get? i).map Chunk.page_content) := by
  refine ⟨rfl, rfl, ?_, fun i => ?_⟩
  · simp [rag_node_documents, retrieverInvoke, retrieveK]
  · simp [rag_node_documents, retrieverInvoke, retrieveK]

/-- C8 counterexample: `rag_node` keeps only `page_content`, so two stores
returning chunks that differ in the page-number metadata produce identical
`documents` entries — a bare text snippet with no metadata attached — so the
metadata fields are not preserved in `retrievedDocuments`. -/
theorem rag_node_drops_metadata_cex :
    chunkPageA.page ≠ chunkPageB.page
  ∧ rag_node_documents storeA "what is ECUReset?"
      = rag_node_documents storeB "what is ECUReset?"
  ∧ rag_node_documents storeA "what is ECUReset?"
      = ["ECUReset request message definition"] :=
  ⟨by decide, rfl, rfl⟩

/-- C8 (amended): each element of `retrievedDocuments` is exactly the text
snippet (`page_content`) of the corresponding chunk the store returned, in
order; the metadata fields (service name, service identifier, section label,
source page number) are discarded by the Retrieval node and are not carried
into `retrievedDocuments`. -/
theorem rag_node_content_only (store : String → Nat → List Chunk)
    (query : String) :
    (∀ i, (rag_node_documents store query).get? i
        = ((store query 5).get? i).map Chunk.page_content)
  ∧ (∀ meta : Chunk → String,
      rag_node_documents store query
        = (store query 5).map fun c =>
            { c with
                service_name := meta c, service_id := meta c,
                section_num := meta c, page := 0 }.page_content) := by
  constructor
  · intro i
    simp [rag_node_documents, retrieverInvoke, retrieveK]
  · intro meta
    simp [rag_node_documents, retrieverInvoke, retrieveK]

/-! ## Graph execution lemmas -/

/-- A turn whose router decision lands on `"rag"` visits router, rag_tool,
responder, terminal and ends in the corresponding state composition. -/
theorem runTurn_eq_of_rag (o : Oracles) (q : String)
    (h : router_node (o.llm (routerPrompt q)) = "rag") :
    runTurn o q =
      ([Node.router, Node.rag_tool, Node.responder, Node.terminal],
        responder_update o (rag_update o (router_update o (initState q)))) := by
  simp [runTurn, runFrom, applyNode, nextNode, router_update, rag_update,
    weather_update, responder_update, initState, h]

/-- A turn whose router decision lands on `"weather"` visits router,
weather_tool, responder, terminal and ends in the corresponding state
composition. -/
theorem runTurn_eq_of_weather (o : Oracles) (q : String)
    (h : router_node (o.llm (routerPrompt q)) = "weather") :
    runTurn o q =
      ([Node.router, Node.weather_tool, Node.responder, Node.terminal],
        responder_update o (weather_update o (router_update o (initState q)))) := by
  simp [runTurn, runFrom, applyNode, nextNode, router_update, rag_update,
    weather_update, responder_update, initState, h]

/-- Every turn's visit sequence is one of the two three-hop paths. -/
theorem runTurn_trace (o : Oracles) (q : String) :
    (runTurn o q).1 = [Node.router, Node.rag_tool, Node.responder, Node.terminal]
  ∨ (runTurn o q).1 =
      [Node.router, Node.weather_tool, Node.responder, Node.terminal] := by
  rcases router_node_mem (o.llm (routerPrompt q)) with h | h
  · right; rw [runTurn_eq_of_weather o q h]
  · left; rw [runTurn_eq_of_rag o q h]

/-- The conditional edge out of the router reaches `rag_tool` exactly on
route `"rag"`. -/
theorem nextNode_router_rag (s : AgentState) :
    nextNode .router s = some .rag_tool ↔ s.route = "rag" := by
  show (if s.route = "rag" then some Node.rag_tool
    else if s.route = "weather" then some Node.weather_tool else none)
      = some Node.rag_tool ↔ s.route = "rag"
  split_ifs with h1 h2 <;> simp [*]

/-- The conditional edge out of the router reaches `weather_tool` exactly on
route `"weather"`. -/
theorem nextNode_router_weather (s : AgentState) :
    nextNode .router s = some .weather_tool ↔ s.route = "weather" := by
  show (if s.route = "rag" then some Node.rag_tool
    else if s.route = "weather" then some Node.weather_tool else none)
      = some Node.weather_tool ↔ s.route = "weather"
  split_ifs with h1 h2 <;> simp [*]

/-- The responder's output is either the fixed fallback string or a verbatim
model output. -/
theorem responder_response_cases (llm : String → String) (query : String)
    (docs : Option (List String)) (wd : Option (List (String × String))) :
    (response_generator_node llm query docs wd).response
        = "I'm sorry, I couldn't process that request."
  ∨ ∃ p, (response_generator_node llm query docs wd).response = llm p := by
  unfold response_generator_node
  split_ifs with h1 h2
  · right; exact ⟨_, rfl⟩
  · right; exact ⟨_, rfl⟩
  · left; rfl

/-- After the responder node runs, `response` is set, to the fallback or to a
verbatim model output. -/
theorem responder_update_response_cases (o : Oracles) (s : AgentState) :
    ∃ r, (responder_update o s).response = some r
      ∧ (r = "I'm sorry, I couldn't process that request."
          ∨ ∃ p, r = o.llm p) :=
  ⟨_, rfl, responder_response_cases o.llm s.query s.documents s.weather_data⟩

/-- When every model output is non-empty, the responder never sets an empty
response (the fallback string is non-empty). -/
theorem responder_update_response_ne_empty (o : Oracles) (s : AgentState)
    (h : ∀ p, o.llm p ≠ "") : (responder_update o s).response ≠ some "" := by
  obtain ⟨r, hr, hcase⟩ := responder_update_response_cases o s
  rw [hr]
  intro he
  injection he with hre
  rcases hcase with hc | ⟨p, hp⟩
  · rw [hre] at hc
    exact absurd hc (by decide)
  · rw [hre] at hp
    exact h p hp.symm

/-! ## Graph claim theorems -/

/-- C5: the compiled graph admits exactly the five listed transitions —
router to rag_tool iff the route is `"rag"` (the retrieval path), router to
weather_tool iff the route is `"weather"`, each tool unconditionally to the
responder, the responder unconditionally to the terminal state, nothing out
of terminal — and every turn starting at the router is one acyclic pass
visiting exactly 3 nodes after the router, none twice. -/
theorem graph_single_pass (o : Oracles) (s : AgentState) (q : String) :
    (nextNode .router s = some .rag_tool ↔ s.route = "rag")
  ∧ (nextNode .router s = some .weather_tool ↔ s.route = "weather")
  ∧ nextNode .rag_tool s = some .responder
  ∧ nextNode .weather_tool s = some .responder
  ∧ nextNode .responder s = some .terminal
  ∧ nextNode .terminal s = none
  ∧ ((runTurn o q).1 = [Node.router, Node.rag_tool, Node.responder, Node.terminal]
      ∨ (runTurn o q).1 =
          [Node.router, Node.weather_tool, Node.responder, Node.terminal])
  ∧ (runTurn o q).1.Nodup
  ∧ (runTurn o q).1.length = 4 := by
  refine ⟨nextNode_router_rag s, nextNode_router_weather s, rfl, rfl, rfl, rfl,
    runTurn_trace o q, ?_, ?_⟩
  · rcases runTurn_trace o q with h | h <;> rw [h] <;> decide
  · rcases runTurn_trace o q with h | h <;> rw [h] <;> rfl

/-- C6 counterexample: with a language model whose outputs are empty strings,
a turn completes (the trace reaches terminal, documents are populated) and
the final `response` is the empty string — so `finalResponse` is not
non-empty on every completed turn. -/
theorem turn_empty_response_cex :
    (runTurn
        { llm := fun _ => "", extractCity := fun _ => "",
          store := fun _ _ => [chunkPageA],
          svc := fun _ => .netError "connection refused" }
        "what is DTC?").1
      = [Node.router, Node.rag_tool, Node.responder, Node.terminal]
  ∧ (runTurn
        { llm := fun _ => "", extractCity := fun _ => "",
          store := fun _ _ => [chunkPageA],
          svc := fun _ => .netError "connection refused" }
        "what is DTC?").2.documents.isSome = true
  ∧ (runTurn
        { llm := fun _ => "", extractCity := fun _ => "",
          store := fun _ _ => [chunkPageA],
          svc := fun _ => .netError "connection refused" }
        "what is DTC?").2.response = some "" :=
  ⟨rfl, rfl, rfl⟩

/-- C6 (amended): on every completed turn exactly one of `documents` /
`weather_data` is populated; `finalResponse` is always set, and it is either
the fixed non-empty fallback string or a verbatim model output — hence
non-empty whenever the model's outputs are non-empty (the code cannot force
a non-empty string out of an empty model completion). -/
theorem turn_state_invariant (o : Oracles) (q : String) :
    ((runTurn o q).2.documents.isSome = true ∧ (runTurn o q).2.weather_data = none
      ∨ (runTurn o q).2.documents = none
          ∧ (runTurn o q).2.weather_data.isSome = true)
  ∧ (∃ r, (runTurn o q).2.response = some r
      ∧ (r = "I'm sorry, I couldn't process that request."
          ∨ ∃ p, r = o.llm p))
  ∧ ((∀ p, o.llm p ≠ "") → (runTurn o q).2.response ≠ some "") := by
  rcases router_node_mem (o.llm (routerPrompt q)) with h | h
  · rw [runTurn_eq_of_weather o q h]
    exact ⟨Or.inr ⟨rfl, rfl⟩, responder_update_response_cases o _,
      fun hp => responder_update_response_ne_empty o _ hp⟩
  · rw [runTurn_eq_of_rag o q h]
    exact ⟨Or.inl ⟨rfl, rfl⟩, responder_update_response_cases o _,
      fun hp => responder_update_response_ne_empty o _ hp⟩

/-! ## Ingestion lemmas -/

/-- Adding end markers keeps the number of ranges. -/
theorem addEnds_length (total : Nat) :
    ∀ l : List SvcEntry, (addEnds total l).length = l.length
  | [] => rfl
  | [_] => rfl
  | _ :: b :: rest => by
      simp [addEnds, addEnds_length total (b :: rest)]

/-- Adding end markers keeps the start pages, in order. -/
theorem addEnds_map_start (total : Nat) :
    ∀ l : List SvcEntry,
      (addEnds total l).map PageRange.start = l.map SvcEntry.start
  | [] => rfl
  | [_] => rfl
  | _ :: b :: rest => by
      simp [addEnds, addEnds_map_start total (b :: rest)]

/-- On a non-empty input the range list starts with the input's first start. -/
theorem addEnds_head_start (total : Nat) (b : SvcEntry) (rest : List SvcEntry) :
    ∃ y ys, addEnds total (b :: rest) = y :: ys ∧ y.start = b.start := by
  cases rest with
  | nil => exact ⟨_, _, rfl, rfl⟩
  | cons c cs => exact ⟨_, _, rfl, rfl⟩

/-- Contiguity: in the range list every `end` equals the next range's
`start`, by construction of the end-marker loop. -/
theorem addEnds_chain (total : Nat) :
    ∀ l : List SvcEntry,
      List.Chain' (fun x y : PageRange => x.endPage = y.start) (addEnds total l)
  | [] => List.chain'_nil
  | [a] => by simp [addEnds]
  | a :: b :: rest => by
      obtain ⟨y, ys, hy, hstart⟩ := addEnds_head_start total b rest
      have ih := addEnds_chain total (b :: rest)
      rw [hy] at ih
      rw [show addEnds total (a :: b :: rest)
          = ⟨a.service_name, a.service_id, a.section_num, a.start, b.start⟩
              :: addEnds total (b :: rest) from rfl, hy, List.chain'_cons]
      exact ⟨hstart.symm, ih⟩

/-- The last range's `end` is the document's page count. -/
theorem addEnds_getLast (total : Nat) :
    ∀ (l : List SvcEntry) (r : PageRange),
      (addEnds total l).getLast? = some r → r.endPage = total
  | [], r => by simp [addEnds]
  | [a], r => by
      intro h
      rw [show addEnds total [a]
          = [⟨a.service_name, a.service_id, a.section_num, a.start, total⟩]
            from rfl, List.getLast?_singleton] at h
      injection h with h'
      rw [← h']
  | a :: b :: rest, r => by
      intro h
      obtain ⟨y, ys, hy, _⟩ := addEnds_head_start total b rest
      rw [show addEnds total (a :: b :: rest)
          = ⟨a.service_name, a.service_id, a.section_num, a.start, b.start⟩
              :: addEnds total (b :: rest) from rfl, hy,
        List.getLast?_cons_cons, ← hy] at h
      exact addEnds_getLast total (b :: rest) r h

/-- C10: the page ranges computed by the ingestion parser number at most 5,
are sorted in ascending order of start page, are contiguous and
non-overlapping — each range's `end` equals the next range's `start` — and
the last range's `end` equals the document's total page count. -/
theorem page_ranges_invariant (ms : List SvcEntry) (total : Nat) :
    (parse_page_ranges ms total).length ≤ 5
  ∧ (parse_page_ranges ms total).Pairwise (fun x y => x.start ≤ y.start)
  ∧ List.Chain' (fun x y => x.endPage = y.start) (parse_page_ranges ms total)
  ∧ (∀ r, (parse_page_ranges ms total).getLast? = some r →
        r.endPage = total) := by
  refine ⟨?_, ?_, addEnds_chain total _, fun r h => addEnds_getLast total _ r h⟩
  · rw [parse_page_ranges, addEnds_length, List.length_take]
    exact Nat.min_le_left _ _
  · have hs : ((sortByStart (buildServiceIndex ms)).take 5).Pairwise leStart :=
      (List.sorted_insertionSort leStart (buildServiceIndex ms)).sublist
        (List.take_sublist 5 _)
    have hm : (((sortByStart (buildServiceIndex ms)).take 5).map
        SvcEntry.start).Pairwise (· ≤ ·) :=
      List.pairwise_map.mpr hs
    rw [← addEnds_map_start total] at hm
    exact List.pairwise_map.mp hm

end DocWeather
